import Mathlib

/-!
Verification of the collector scheduling and registration core of the
agent-collector repository, as a shallow embedding in Lean.

A collector is modelled by its observable behaviour: its name together with
the outcomes of its lifecycle operations (`Init`, `Collect`, `Close`), each
an `Option String` where `none` is success and `some e` is the error `e`.
The registry loops (`InitAll`, `CollectAll`, `CloseAll`) are translated from
`src/internal/collector/collector.go` and `src/pkg/registers/initregistrys.go`;
where the two files' bodies are textually identical the loop is defined once
and both methods refer to it.  Floating-point counters are embedded as exact
rationals; the library exponential used by the load calculator is abstracted
as a function parameter.
-/

namespace AgentCollector

/-- Behavioural model of the Go `Collector` interface
(`src/internal/collector/collector.go`, lines 13-18): a name plus the result
each lifecycle call would return (`none` = nil error). -/
structure Collector where
  name : String
  initResult : Option String
  collectResult : Option String
  closeResult : Option String
deriving DecidableEq

/-- `Registry` from `src/internal/collector/collector.go` (line 21): the
ordered sequence of registered collectors.  The ticker/context fields are
modelled separately in `RegistryState` for the shutdown claim. -/
structure Registry where
  collectors : List Collector
deriving DecidableEq

/-- `Registry.Register` (collector.go lines 49-60): scan the existing
collectors; if one already has the same name, log a warning and return
without modifying the list; otherwise append. -/
def Registry.Register (r : Registry) (c : Collector) : Registry :=
  if r.collectors.any (fun existing => existing.name == c.name) then r
  else { r with collectors := r.collectors ++ [c] }

/-- `AgentImpl` from `src/pkg/registers/initregistrys.go` (line 13): the
parallel implementation of the same Agent interface. -/
structure AgentImpl where
  collectors : List Collector
deriving DecidableEq

/-- `AgentImpl.Register` (initregistrys.go lines 41-45): takes the mutex and
appends unconditionally — there is no duplicate-name check in this variant. -/
def AgentImpl.Register (r : AgentImpl) (c : Collector) : AgentImpl :=
  { r with collectors := r.collectors ++ [c] }

/-- Body of `Registry.InitAll` (collector.go lines 117-127): call `Init` on
each collector in order, returning at the first failure with a wrapped
error.  The first component records which collectors had `Init` invoked, in
invocation order. -/
def InitAllLoop : List Collector → List String × Option String
  | [] => ([], none)
  | c :: rest =>
    match c.initResult with
    | some e => ([c.name], some ("collector " ++ c.name ++ " init failed: " ++ e))
    | none =>
      let tail := InitAllLoop rest
      (c.name :: tail.1, tail.2)

/-- `Registry.InitAll` (collector.go lines 117-127). -/
def Registry.InitAll (r : Registry) : List String × Option String :=
  InitAllLoop r.collectors

/-- Body of `Registry.CollectAll` / `AgentImpl.CollectAll` (collector.go
lines 130-142, initregistrys.go lines 112-124, identical): call `Collect` on
every collector, setting `hasErr` on any failure but never breaking out of
the loop.  The first component records the `Collect` invocations in order;
the second is the final `hasErr` flag. -/
def CollectAllLoop : List Collector → Bool → List String × Bool
  | [], hasErr => ([], hasErr)
  | c :: rest, hasErr =>
    let hasErr := if c.collectResult.isSome then true else hasErr
    let tail := CollectAllLoop rest hasErr
    (c.name :: tail.1, tail.2)

/-- `Registry.CollectAll` (collector.go lines 130-142): after the loop,
return a non-nil aggregate error exactly when `hasErr` was set. -/
def Registry.CollectAll (r : Registry) : List String × Option String :=
  let run := CollectAllLoop r.collectors false
  (run.1, if run.2 then some "some collectors failed to collect data" else none)

/-- `AgentImpl.CollectAll` (initregistrys.go lines 112-124): textually the
same loop as `Registry.CollectAll`. -/
def AgentImpl.CollectAll (r : AgentImpl) : List String × Option String :=
  Registry.CollectAll ⟨r.collectors⟩

/-- Body of `Registry.CloseAll` / `AgentImpl.CloseAll` (collector.go lines
145-157, initregistrys.go lines 127-139, identical): call `Close` on every
collector in order; a failure overwrites `lastErr` but does not break the
loop.  The first component records the `Close` invocations in order. -/
def CloseAllLoop : List Collector → Option String → List String × Option String
  | [], lastErr => ([], lastErr)
  | c :: rest, lastErr =>
    let lastErr := match c.closeResult with
      | some e => some e
      | none => lastErr
    let tail := CloseAllLoop rest lastErr
    (c.name :: tail.1, tail.2)

/-- `Registry.CloseAll` (collector.go lines 145-157): run the loop starting
from a nil `lastErr` and return the final `lastErr`. -/
def Registry.CloseAll (r : Registry) : List String × Option String :=
  CloseAllLoop r.collectors none

/-- `AgentImpl.CloseAll` (initregistrys.go lines 127-139). -/
def AgentImpl.CloseAll (r : AgentImpl) : List String × Option String :=
  CloseAllLoop r.collectors none

/-- Outcome of `Registry.Start` (collector.go lines 63-97).  `logger.Fatal`
calls `os.Exit`, so an `InitAll` failure terminates the process before the
ticker is created or the sampling goroutine is launched. -/
inductive StartOutcome where
  | fatal (err : String)
  | running
deriving DecidableEq

/-- Result of `Registry.Start`: the outcome plus the trace of `Collect`
invocations performed by the started loop (the immediate first pass; later
ticks repeat `CollectAll` identically). -/
structure StartResult where
  outcome : StartOutcome
  collectTrace : List String
deriving DecidableEq

/-- `Registry.Start` (collector.go lines 63-97): `InitAll` first — on error,
`logger.Fatal` aborts (no sampling pass ever runs); on success the ticker
starts and the goroutine performs a first `CollectAll` whose failure is only
warned about. -/
def Registry.Start (r : Registry) : StartResult :=
  match (Registry.InitAll r).2 with
  | some e => { outcome := .fatal e, collectTrace := [] }
  | none => { outcome := .running, collectTrace := (Registry.CollectAll r).1 }

/-- Registry state relevant to `Shutdown` (collector.go lines 21-27):
`ticker = none` models the nil `*time.Ticker` that `NewRegistry` leaves in
place until `Start` assigns one. -/
structure RegistryState where
  collectors : List Collector
  ticker : Option Unit
  cancelled : Bool
deriving DecidableEq

/-- `(*time.Ticker).Stop` dereferences the receiver, so calling it on a nil
ticker panics; `none` in the result models that panic. -/
def tickerStop : Option Unit → Option Unit
  | none => none
  | some _ => some ()

/-- Result of a non-panicking `Registry.Shutdown` call. -/
structure ShutdownResult where
  state : RegistryState
  closeTrace : List String
  result : Option String
deriving DecidableEq

/-- `Registry.Shutdown` (collector.go lines 100-113, initregistrys.go lines
96-109, identical): stop the ticker only if it is non-nil, cancel the
internal context, then return `CloseAll`'s result.  A `none` result models a
runtime panic (which the nil guard is there to prevent). -/
def RegistryState.Shutdown (r : RegistryState) : Option ShutdownResult :=
  let stopOutcome : Option Unit :=
    if r.ticker.isSome then tickerStop r.ticker else some ()
  match stopOutcome with
  | none => none
  | some _ =>
    let closed := CloseAllLoop r.collectors none
    some { state := { r with cancelled := true }, closeTrace := closed.1, result := closed.2 }

/-- `CPUTimes` (src/pkg/collector/cpu_collector.go lines 22-31): the eight
cumulative mode counters of one `/proc/stat` row.  The Go `float64` fields
are embedded as exact rationals. -/
structure CPUTimes where
  User : ℚ
  Nice : ℚ
  System : ℚ
  Idle : ℚ
  Iowait : ℚ
  Irq : ℚ
  Softirq : ℚ
  Steal : ℚ
deriving DecidableEq

/-- The `total` accumulator computed in `collectCPUFromProc` (cpu_collector.go
line 200): sum of all eight fields. -/
def CPUTimes.total (t : CPUTimes) : ℚ :=
  t.User + t.Nice + t.System + t.Idle + t.Iowait + t.Irq + t.Softirq + t.Steal

/-- Lookup in the `lastCPUTimes` map (`map[string]CPUTimes`), embedded as an
association list. -/
def mapLookup : List (String × CPUTimes) → String → Option CPUTimes
  | [], _ => none
  | (k, v) :: rest, key => if k == key then some v else mapLookup rest key

/-- Update of the `lastCPUTimes` map: overwrite the binding for `key` if
present, otherwise add it. -/
def mapInsert : List (String × CPUTimes) → String → CPUTimes → List (String × CPUTimes)
  | [], key, v => [(key, v)]
  | (k, w) :: rest, key, v =>
    if k == key then (k, v) :: rest else (k, w) :: mapInsert rest key v

/-- The metrics emitted for one CPU-id row in one pass of
`collectCPUFromProc`: the eight mode-labelled `usagePercent` gauge writes
and the aggregate `totalUsagePercent` gauge write. -/
structure Emission where
  modePercents : List (String × ℚ)
  totalUsagePercent : ℚ
deriving DecidableEq

/-- Per-row body of `CPUCollector.collectCPUFromProc` (cpu_collector.go lines
199-258), given the parsed counters of one row: if no previous snapshot
exists for `cpu_id`, store the current one and emit nothing; compute the
eight deltas and `deltaTotal`; if `deltaTotal <= 0`, store and emit nothing;
otherwise emit `delta/deltaTotal*100` per mode and
`(deltaTotal-deltaIdle)/deltaTotal*100`, then store the current snapshot. -/
def collectCPURow (lastCPUTimes : List (String × CPUTimes)) (cpu_id : String)
    (times : CPUTimes) : Option Emission × List (String × CPUTimes) :=
  match mapLookup lastCPUTimes cpu_id with
  | none => (none, mapInsert lastCPUTimes cpu_id times)
  | some lastTime =>
    let deltaUser := times.User - lastTime.User
    let deltaNice := times.Nice - lastTime.Nice
    let deltaSystem := times.System - lastTime.System
    let deltaIdle := times.Idle - lastTime.Idle
    let deltaIowait := times.Iowait - lastTime.Iowait
    let deltaIrq := times.Irq - lastTime.Irq
    let deltaSoftirq := times.Softirq - lastTime.Softirq
    let deltaSteal := times.Steal - lastTime.Steal
    let deltaTotal := times.total - lastTime.total
    if deltaTotal ≤ 0 then (none, mapInsert lastCPUTimes cpu_id times)
    else
      let modeMetrics : List (String × ℚ) :=
        [("user", deltaUser), ("nice", deltaNice), ("system", deltaSystem),
         ("idle", deltaIdle), ("iowait", deltaIowait), ("irq", deltaIrq),
         ("softirq", deltaSoftirq), ("steal", deltaSteal)]
      let emitted := modeMetrics.map (fun p => (p.1, p.2 / deltaTotal * 100))
      let totalUsagePercent := (deltaTotal - deltaIdle) / deltaTotal * 100
      (some { modePercents := emitted, totalUsagePercent := totalUsagePercent },
       mapInsert lastCPUTimes cpu_id times)

/-- Environment of one `CPUCollector.Collect` call (cpu_collector.go lines
96-147): the error outcome of each sub-step's underlying read, `none` being
success. -/
structure CollectEnv where
  usageResult : Option String
  loadResult : Option String
  procResult : Option String
  infoResult : Option String
deriving DecidableEq

/-- Observable outcome of one `CPUCollector.Collect` call: the returned
error, how many times `collectErrors` was incremented, and which sub-steps
were reached, in order. -/
structure CollectOutcome where
  result : Option String
  errorIncrements : Nat
  steps : List String
deriving DecidableEq

/-- `CPUCollector.Collect` (cpu_collector.go lines 96-147): a usage-ratio
read failure increments the counter and returns the error; a load-averages
read failure increments the counter and returns nil immediately, so the
`collectCPUFromProc` and `collectCPUInfoFromProc` sub-steps do not run on
that tick; otherwise both sub-steps run, each failure incrementing the
counter, and nil is returned. -/
def CPUCollector.Collect (env : CollectEnv) : CollectOutcome :=
  match env.usageResult with
  | some e =>
    { result := some ("get cpu usage failed: " ++ e), errorIncrements := 1,
      steps := ["usage"] }
  | none =>
    match env.loadResult with
    | some _ =>
      { result := none, errorIncrements := 1, steps := ["usage", "load"] }
    | none =>
      let procInc := if env.procResult.isSome then 1 else 0
      let infoInc := if env.infoResult.isSome then 1 else 0
      { result := none, errorIncrements := procInc + infoInc,
        steps := ["usage", "load", "proc", "info"] }

/-- `LoadCalculator` (src/pkg/collector/load_cpu.go lines 18-28): sampling
cycle in seconds, the three running averages, the three precomputed decay
coefficients, and the initialization flag.  Go `float64` values are embedded
as rationals. -/
structure LoadCalculator where
  sampleCycle : ℚ
  load1 : ℚ
  load5 : ℚ
  load15 : ℚ
  alpha1 : ℚ
  alpha5 : ℚ
  alpha15 : ℚ
  initialized : Bool
deriving DecidableEq

/-- `NewLoadCalculator` (load_cpu.go lines 31-43): reject a non-positive
sampling cycle, otherwise precompute the three coefficients
`1 - exp(-dt/window)` from `dt = sampleCycle.Seconds()`.  The library
exponential `math.Exp` is abstracted as the parameter `exp`. -/
def NewLoadCalculator (sampleCycle : ℚ) (exp : ℚ → ℚ) :
    Except String LoadCalculator :=
  if sampleCycle ≤ 0 then .error "sample cycle must be positive"
  else
    let dt := sampleCycle
    .ok { sampleCycle := sampleCycle
          load1 := 0, load5 := 0, load15 := 0
          alpha1 := 1 - exp (-dt / 60)
          alpha5 := 1 - exp (-dt / 300)
          alpha15 := 1 - exp (-dt / 900)
          initialized := false }

/-- The guard of `LoadCalculator.StartLoad` (load_cpu.go lines 46-49):
return an error whenever the runtime OS is not linux, else nil. -/
def StartLoad (goos : String) : Option String :=
  if goos ≠ "linux" then
    some ("load collection only supports Linux (current OS: " ++ goos ++ ")")
  else none

/-- `LoadCalculator.sampleAndUpdate` (load_cpu.go lines 71-91), given a
successfully read instantaneous load: on the first sample, seed all three
averages with the value and set `initialized`; afterwards apply the
exponential moving average with each window's coefficient. -/
def LoadCalculator.sampleAndUpdate (c : LoadCalculator) (currentLoad : ℚ) :
    LoadCalculator :=
  if !c.initialized then
    { c with load1 := currentLoad, load5 := currentLoad, load15 := currentLoad,
             initialized := true }
  else
    { c with
      load1 := c.load1 * (1 - c.alpha1) + currentLoad * c.alpha1
      load5 := c.load5 * (1 - c.alpha5) + currentLoad * c.alpha5
      load15 := c.load15 * (1 - c.alpha15) + currentLoad * c.alpha15 }

/-- Concrete collector fixture: a collector whose every operation succeeds. -/
def wCpu : Collector :=
  { name := "cpu-collector", initResult := none, collectResult := none, closeResult := none }

/-- Concrete collector fixture: `Init` fails. -/
def wDiskInitFail : Collector :=
  { name := "disk-collector", initResult := some "io error", collectResult := none,
    closeResult := none }

/-- Concrete collector fixture: `Collect` fails. -/
def wNetCollectFail : Collector :=
  { name := "net-collector", initResult := none, collectResult := some "read error",
    closeResult := none }

/-- Concrete collector fixture: `Close` fails with one error. -/
def wMemCloseFail : Collector :=
  { name := "mem-collector", initResult := none, collectResult := none,
    closeResult := some "close mem failed" }

/-- Concrete collector fixture: `Close` fails with a different error. -/
def wFsCloseFail : Collector :=
  { name := "fs-collector", initResult := none, collectResult := none,
    closeResult := some "close fs failed" }

/-- Concrete counter snapshot: user 100, idle 900, all other modes 0. -/
def wPrevTimes : CPUTimes :=
  { User := 100, Nice := 0, System := 0, Idle := 900, Iowait := 0, Irq := 0,
    Softirq := 0, Steal := 0 }

/-- Concrete counter snapshot: user 150, idle 950, all other modes 0. -/
def wCurTimes : CPUTimes :=
  { User := 150, Nice := 0, System := 0, Idle := 950, Iowait := 0, Irq := 0,
    Softirq := 0, Steal := 0 }

/-- Concrete stand-in for the library exponential in witnesses. -/
def wExp : ℚ → ℚ := fun q => 1 + q

/-- The calculator `NewLoadCalculator 1 wExp` constructs. -/
def wCalc : LoadCalculator :=
  { sampleCycle := 1, load1 := 0, load5 := 0, load15 := 0,
    alpha1 := 1 / 60, alpha5 := 1 / 300, alpha15 := 1 / 900, initialized := false }

/-- The accumulator step of the `CloseAll` loop: a failing `Close` overwrites
`lastErr`, a successful one leaves it. -/
def closeStep (lastErr : Option String) (c : Collector) : Option String :=
  match c.closeResult with
  | some e => some e
  | none => lastErr

theorem collectAllLoop_trace (cs : List Collector) (b : Bool) :
    (CollectAllLoop cs b).1 = cs.map Collector.name := by
  induction cs generalizing b with
  | nil => rfl
  | cons c rest ih => simp [CollectAllLoop, ih]

theorem collectAllLoop_flag (cs : List Collector) (b : Bool) :
    (CollectAllLoop cs b).2 = (b || cs.any fun c => c.collectResult.isSome) := by
  induction cs generalizing b with
  | nil => simp [CollectAllLoop]
  | cons c rest ih =>
    cases hc : c.collectResult.isSome <;>
      simp [CollectAllLoop, hc, ih]

theorem closeAllLoop_trace (cs : List Collector) (acc : Option String) :
    (CloseAllLoop cs acc).1 = cs.map Collector.name := by
  induction cs generalizing acc with
  | nil => rfl
  | cons c rest ih =>
    cases hc : c.closeResult <;> simp [CloseAllLoop, hc, ih]

theorem closeAllLoop_snd (cs : List Collector) (acc : Option String) :
    (CloseAllLoop cs acc).2 = cs.foldl closeStep acc := by
  induction cs generalizing acc with
  | nil => rfl
  | cons c rest ih =>
    cases hc : c.closeResult <;> simp [CloseAllLoop, closeStep, hc, ih]

theorem foldl_closeStep_all_none (cs : List Collector) (acc : Option String)
    (h : ∀ c ∈ cs, c.closeResult = none) : cs.foldl closeStep acc = acc := by
  induction cs generalizing acc with
  | nil => rfl
  | cons c rest ih =>
    rw [List.foldl_cons,
      show closeStep acc c = acc by simp [closeStep, h c (by simp)]]
    exact ih acc fun x hx => h x (by simp [hx])

theorem initAllLoop_trace (cs : List Collector) :
    (InitAllLoop cs).1 =
      (cs.takeWhile fun c => c.initResult.isNone).map Collector.name ++
        ((cs.dropWhile fun c => c.initResult.isNone).take 1).map Collector.name := by
  induction cs with
  | nil => rfl
  | cons c rest ih =>
    cases hc : c.initResult with
    | some e => simp [InitAllLoop, hc, List.takeWhile_cons, List.dropWhile_cons]
    | none => simp [InitAllLoop, hc, List.takeWhile_cons, List.dropWhile_cons, ih]

theorem initAllLoop_isSome (cs : List Collector) :
    (InitAllLoop cs).2.isSome = cs.any fun c => c.initResult.isSome := by
  induction cs with
  | nil => rfl
  | cons c rest ih =>
    cases hc : c.initResult <;> simp [InitAllLoop, hc, ih]

theorem mapLookup_mapInsert (m : List (String × CPUTimes)) (k : String) (v : CPUTimes) :
    mapLookup (mapInsert m k v) k = some v := by
  induction m with
  | nil => simp [mapInsert, mapLookup]
  | cons p rest ih =>
    obtain ⟨k', w⟩ := p
    by_cases h : (k' == k) = true
    · simp [mapInsert, mapLookup, h]
    · simp [mapInsert, mapLookup, h, ih]

/-- Claim C1, counterexample: in the `AgentImpl` registry variant, registering
a collector whose name equals that of an already-registered collector is not a
no-op — the collector count increases from 1 to 2. -/
theorem agentImpl_register_duplicate_grows :
    (AgentImpl.Register ⟨[wCpu]⟩ wCpu).collectors.length = 2 ∧
      ¬ (AgentImpl.Register ⟨[wCpu]⟩ wCpu).collectors.length = 1 := by
  constructor <;> decide

/-- Claim C1 (amended): for the internal `Registry`, `Register` with a
duplicate name is a no-op and a fresh name is appended at the end; the
`AgentImpl` variant performs no duplicate check and appends unconditionally,
so its collector count increases even for a duplicate name. -/
theorem register_duplicate_semantics (r : Registry) (a : AgentImpl) (c : Collector) :
    ((∃ e ∈ r.collectors, e.name = c.name) → Registry.Register r c = r) ∧
    ((∀ e ∈ r.collectors, e.name ≠ c.name) →
      (Registry.Register r c).collectors = r.collectors ++ [c]) ∧
    (AgentImpl.Register a c).collectors = a.collectors ++ [c] := by
  refine ⟨?_, ?_, rfl⟩
  · rintro ⟨e, he, hname⟩
    have : r.collectors.any (fun existing => existing.name == c.name) = true :=
      List.any_eq_true.mpr ⟨e, he, by simp [hname]⟩
    simp [Registry.Register, this]
  · intro h
    have : r.collectors.any (fun existing => existing.name == c.name) = false := by
      simp only [List.any_eq_false]
      intro e he
      simp [h e he]
    simp [Registry.Register, this]

/-- Witness for C1's theorem at concrete inputs: a duplicate registration on
`Registry` leaves it unchanged, a fresh one appends, and `AgentImpl` appends
even a duplicate. -/
theorem register_duplicate_semantics_witness :
    Registry.Register ⟨[wCpu]⟩ wCpu = ⟨[wCpu]⟩ ∧
    (Registry.Register ⟨[wCpu]⟩ wNetCollectFail).collectors = [wCpu, wNetCollectFail] ∧
    (AgentImpl.Register ⟨[wCpu]⟩ wCpu).collectors = [wCpu, wCpu] := by
  refine ⟨?_, ?_, ?_⟩
  · exact (register_duplicate_semantics ⟨[wCpu]⟩ ⟨[]⟩ wCpu).1 ⟨wCpu, by simp, rfl⟩
  · exact ((register_duplicate_semantics ⟨[wCpu]⟩ ⟨[]⟩ wNetCollectFail).2.1
      (by decide)).trans (by decide)
  · exact ((register_duplicate_semantics ⟨[]⟩ ⟨[wCpu]⟩ wCpu).2.2).trans (by decide)

/-- Claim C2: when some registered collector's `Init` fails, `Start` ends in
the fatal outcome (never `running`), no `Collect` call happens, and `InitAll`
invoked `Init` in registration order up to and including the first failing
collector only. -/
theorem start_fatal_on_init_failure (r : Registry)
    (h : ∃ c ∈ r.collectors, c.initResult.isSome) :
    (∃ e, (Registry.Start r).outcome = .fatal e) ∧
    ¬ (Registry.Start r).outcome = .running ∧
    (Registry.Start r).collectTrace = [] ∧
    (Registry.InitAll r).1 =
      (r.collectors.takeWhile fun c => c.initResult.isNone).map Collector.name ++
        ((r.collectors.dropWhile fun c => c.initResult.isNone).take 1).map Collector.name := by
  have hs : (InitAllLoop r.collectors).2.isSome = true := by
    rw [initAllLoop_isSome]
    exact List.any_eq_true.mpr (by simpa using h)
  obtain ⟨e, he⟩ := Option.isSome_iff_exists.mp hs
  refine ⟨⟨e, ?_⟩, ?_, ?_, initAllLoop_trace r.collectors⟩ <;>
    simp [Registry.Start, Registry.InitAll, he]

/-- Witness for C2 at a concrete registry whose second collector's `Init`
fails: `Start` is fatal, no collection pass runs, and `Init` was invoked on
the first two collectors only. -/
theorem start_fatal_on_init_failure_witness :
    (∃ e, (Registry.Start ⟨[wCpu, wDiskInitFail, wNetCollectFail]⟩).outcome = .fatal e) ∧
    ¬ (Registry.Start ⟨[wCpu, wDiskInitFail, wNetCollectFail]⟩).outcome = .running ∧
    (Registry.Start ⟨[wCpu, wDiskInitFail, wNetCollectFail]⟩).collectTrace = [] ∧
    (Registry.InitAll ⟨[wCpu, wDiskInitFail, wNetCollectFail]⟩).1 =
      ["cpu-collector", "disk-collector"] := by
  have h := start_fatal_on_init_failure ⟨[wCpu, wDiskInitFail, wNetCollectFail]⟩
    ⟨wDiskInitFail, by decide, by decide⟩
  exact ⟨h.1, h.2.1, h.2.2.1, h.2.2.2.trans (by decide)⟩

/-- Claim C3: a collection pass invokes `Collect` exactly once per registered
collector, sequentially in registration order and regardless of earlier
failures in the same pass, and its aggregate result is an error exactly when
at least one collector failed; the `AgentImpl` pass behaves identically. -/
theorem collectAll_runs_every_collector (r : Registry) :
    (Registry.CollectAll r).1 = r.collectors.map Collector.name ∧
    ((Registry.CollectAll r).2.isSome ↔ ∃ c ∈ r.collectors, c.collectResult.isSome) ∧
    AgentImpl.CollectAll ⟨r.collectors⟩ = Registry.CollectAll r := by
  refine ⟨?_, ?_, rfl⟩
  · simpa [Registry.CollectAll] using collectAllLoop_trace r.collectors false
  · have hf := collectAllLoop_flag r.collectors false
    simp only [Bool.false_or] at hf
    have hsome : (Registry.CollectAll r).2.isSome = (CollectAllLoop r.collectors false).2 := by
      simp only [Registry.CollectAll]
      cases hb : (CollectAllLoop r.collectors false).2 <;> simp [hb]
    rw [show ((Registry.CollectAll r).2.isSome ↔ ∃ c ∈ r.collectors, c.collectResult.isSome) =
        ((Registry.CollectAll r).2.isSome = true ↔ ∃ c ∈ r.collectors, c.collectResult.isSome)
      from rfl, hsome, hf]
    exact List.any_eq_true

/-- Witness for C3 at a concrete registry whose first collector fails: both
collectors are still sampled in order and the pass reports an error. -/
theorem collectAll_runs_every_collector_witness :
    (Registry.CollectAll ⟨[wNetCollectFail, wCpu]⟩).1 = ["net-collector", "cpu-collector"] ∧
    (Registry.CollectAll ⟨[wNetCollectFail, wCpu]⟩).2.isSome = true := by
  have h := collectAll_runs_every_collector ⟨[wNetCollectFail, wCpu]⟩
  exact ⟨h.1.trans (by decide), by
    have := h.2.1.mpr ⟨wNetCollectFail, by decide, by decide⟩
    simpa using this⟩

/-- Claim C4: a delta pass over one CPU-id row emits metrics exactly when a
previous snapshot exists for that id and `deltaTotal > 0`, and in every case
the current counters become the stored baseline for that id. -/
theorem collectCPURow_emit_guard (last : List (String × CPUTimes)) (cpu_id : String)
    (times : CPUTimes) :
    ((collectCPURow last cpu_id times).1.isSome ↔
      ∃ lastTime, mapLookup last cpu_id = some lastTime ∧
        times.total - lastTime.total > 0) ∧
    mapLookup (collectCPURow last cpu_id times).2 cpu_id = some times := by
  constructor
  · cases hl : mapLookup last cpu_id with
    | none => simp [collectCPURow, hl]
    | some lt =>
      by_cases hd : times.total - lt.total ≤ 0
      · simp only [collectCPURow, hl, if_pos hd, Option.isSome_none,
          Bool.false_eq_true, false_iff, not_exists, not_and]
        rintro x hx
        cases Option.some.inj hx
        exact not_lt.mpr hd
      · constructor
        · intro _
          exact ⟨lt, rfl, not_le.mp hd⟩
        · intro _
          simp [collectCPURow, hl, hd]
  · cases hl : mapLookup last cpu_id with
    | none => simp [collectCPURow, hl, mapLookup_mapInsert]
    | some lt =>
      by_cases hd : times.total - lt.total ≤ 0 <;>
        simp [collectCPURow, hl, hd, mapLookup_mapInsert]

/-- Witness for C4 at concrete inputs: with no stored snapshot nothing is
emitted but the snapshot is stored; after that, an advancing counter row is
emitted and the baseline replaced. -/
theorem collectCPURow_emit_guard_witness :
    (collectCPURow [] "total" wPrevTimes).1.isSome = false ∧
    mapLookup (collectCPURow [] "total" wPrevTimes).2 "total" = some wPrevTimes ∧
    (collectCPURow [("total", wPrevTimes)] "total" wCurTimes).1.isSome = true ∧
    mapLookup (collectCPURow [("total", wPrevTimes)] "total" wCurTimes).2 "total" =
      some wCurTimes := by
  refine ⟨?_, (collectCPURow_emit_guard [] "total" wPrevTimes).2, ?_,
    (collectCPURow_emit_guard [("total", wPrevTimes)] "total" wCurTimes).2⟩
  · rw [Bool.eq_false_iff]
    intro hx
    obtain ⟨lt, hlt, _⟩ := (collectCPURow_emit_guard [] "total" wPrevTimes).1.mp hx
    simp [mapLookup] at hlt
  · exact (collectCPURow_emit_guard [("total", wPrevTimes)] "total" wCurTimes).1.mpr
      ⟨wPrevTimes, rfl, by norm_num [wCurTimes, wPrevTimes, CPUTimes.total]⟩

/-- Claim C5: with a stored baseline and positive `deltaTotal`, the pass
emits `delta/deltaTotal*100` for each of the eight modes and
`(deltaTotal-deltaIdle)/deltaTotal*100` as the aggregate. -/
theorem collectCPURow_percentage_formula (last : List (String × CPUTimes)) (cpu_id : String)
    (times lastTime : CPUTimes) (h1 : mapLookup last cpu_id = some lastTime)
    (h2 : times.total - lastTime.total > 0) :
    (collectCPURow last cpu_id times).1 = some
      { modePercents :=
          [("user", (times.User - lastTime.User) / (times.total - lastTime.total) * 100),
           ("nice", (times.Nice - lastTime.Nice) / (times.total - lastTime.total) * 100),
           ("system", (times.System - lastTime.System) / (times.total - lastTime.total) * 100),
           ("idle", (times.Idle - lastTime.Idle) / (times.total - lastTime.total) * 100),
           ("iowait", (times.Iowait - lastTime.Iowait) / (times.total - lastTime.total) * 100),
           ("irq", (times.Irq - lastTime.Irq) / (times.total - lastTime.total) * 100),
           ("softirq", (times.Softirq - lastTime.Softirq) / (times.total - lastTime.total) * 100),
           ("steal", (times.Steal - lastTime.Steal) / (times.total - lastTime.total) * 100)],
        totalUsagePercent :=
          ((times.total - lastTime.total) - (times.Idle - lastTime.Idle)) /
            (times.total - lastTime.total) * 100 } := by
  simp [collectCPURow, h1, not_le.mpr h2]

/-- Witness for C5 at the spec's concrete counters `user:100,idle:900` then
`user:150,idle:950`: the emitted user percentage is 50 and the aggregate
usage percentage is 50. -/
theorem collectCPURow_percentage_formula_witness :
    (collectCPURow [("total", wPrevTimes)] "total" wCurTimes).1 = some
      { modePercents := [("user", 50), ("nice", 0), ("system", 0), ("idle", 50),
          ("iowait", 0), ("irq", 0), ("softirq", 0), ("steal", 0)],
        totalUsagePercent := 50 } := by
  rw [collectCPURow_percentage_formula [("total", wPrevTimes)] "total" wCurTimes wPrevTimes
    rfl (by norm_num [wCurTimes, wPrevTimes, CPUTimes.total])]
  norm_num [wCurTimes, wPrevTimes, CPUTimes.total]

/-- Claim C6: closing the registry calls `Close` once per collector in
registration order even when some fail, returns nil when all succeed and
otherwise the error of the last collector whose `Close` failed; the
`AgentImpl` variant behaves identically. -/
theorem closeAll_closes_every_collector (r : Registry) :
    (Registry.CloseAll r).1 = r.collectors.map Collector.name ∧
    ((∀ c ∈ r.collectors, c.closeResult = none) → (Registry.CloseAll r).2 = none) ∧
    (∀ l1 ck l2, r.collectors = l1 ++ ck :: l2 → ck.closeResult.isSome →
      (∀ c ∈ l2, c.closeResult = none) → (Registry.CloseAll r).2 = ck.closeResult) ∧
    AgentImpl.CloseAll ⟨r.collectors⟩ = Registry.CloseAll r := by
  refine ⟨closeAllLoop_trace r.collectors none, ?_, ?_, rfl⟩
  · intro h
    rw [Registry.CloseAll, closeAllLoop_snd]
    exact foldl_closeStep_all_none r.collectors none h
  · intro l1 ck l2 hsplit hck hl2
    rw [Registry.CloseAll, closeAllLoop_snd, hsplit, List.foldl_append, List.foldl_cons]
    obtain ⟨e, he⟩ := Option.isSome_iff_exists.mp hck
    rw [show closeStep (List.foldl closeStep none l1) ck = some e by simp [closeStep, he]]
    rw [foldl_closeStep_all_none l2 (some e) hl2, he]

/-- Witness for C6 at a concrete registry whose first and third collectors
fail to close: all three `Close` calls happen in order and the returned
error is the third (last failing) collector's. -/
theorem closeAll_closes_every_collector_witness :
    (Registry.CloseAll ⟨[wMemCloseFail, wCpu, wFsCloseFail]⟩).1 =
      ["mem-collector", "cpu-collector", "fs-collector"] ∧
    (Registry.CloseAll ⟨[wMemCloseFail, wCpu, wFsCloseFail]⟩).2 = some "close fs failed" := by
  have h := closeAll_closes_every_collector ⟨[wMemCloseFail, wCpu, wFsCloseFail]⟩
  refine ⟨h.1.trans (by decide), ?_⟩
  have h3 := h.2.2.1 [wMemCloseFail, wCpu] wFsCloseFail [] rfl (by decide) (by simp)
  exact h3.trans (by decide)

/-- Claim C7, counterexample: when the usage-ratio read succeeds but the
load-averages read fails, `Collect` returns nil yet the mode-breakdown and
static-info sub-steps are not executed on that tick. -/
theorem cpu_collect_load_failure_skips_substeps :
    (CPUCollector.Collect ⟨none, some "open loadavg failed", none, none⟩).result = none ∧
    "proc" ∉ (CPUCollector.Collect ⟨none, some "open loadavg failed", none, none⟩).steps ∧
    "info" ∉ (CPUCollector.Collect ⟨none, some "open loadavg failed", none, none⟩).steps := by
  refine ⟨rfl, ?_, ?_⟩ <;> decide

/-- Claim C7 (amended): when the usage-ratio read succeeds, a load-averages
read failure is suppressed — `Collect` increments the error counter once and
returns nil — but the mode-breakdown and static-info sub-steps are skipped
for that tick; when the load read also succeeds, both sub-steps run and a
failure in either increments the error counter without making `Collect`
return an error. -/
theorem cpu_collect_error_suppression (env : CollectEnv) (h : env.usageResult = none) :
    (env.loadResult.isSome →
      CPUCollector.Collect env =
        { result := none, errorIncrements := 1, steps := ["usage", "load"] }) ∧
    (env.loadResult = none →
      (CPUCollector.Collect env).result = none ∧
      (CPUCollector.Collect env).steps = ["usage", "load", "proc", "info"] ∧
      (CPUCollector.Collect env).errorIncrements =
        (if env.procResult.isSome then 1 else 0) +
          (if env.infoResult.isSome then 1 else 0)) := by
  obtain ⟨u, l, p, i⟩ := env
  subst h
  constructor
  · intro hl
    obtain ⟨e, he⟩ := Option.isSome_iff_exists.mp hl
    subst he
    rfl
  · intro hl
    subst hl
    exact ⟨rfl, rfl, rfl⟩

/-- Witness for C7's amended theorem at concrete environments: a failing
load read yields a nil result with one error increment and only the first
two sub-steps; a failing mode-breakdown read still yields a nil result with
one error increment. -/
theorem cpu_collect_error_suppression_witness :
    CPUCollector.Collect ⟨none, some "loadavg unreadable", none, none⟩ =
      { result := none, errorIncrements := 1, steps := ["usage", "load"] } ∧
    (CPUCollector.Collect ⟨none, none, some "stat unreadable", none⟩).result = none ∧
    (CPUCollector.Collect ⟨none, none, some "stat unreadable", none⟩).errorIncrements = 1 := by
  have h1 := cpu_collect_error_suppression ⟨none, some "loadavg unreadable", none, none⟩ rfl
  have h2 := cpu_collect_error_suppression ⟨none, none, some "stat unreadable", none⟩ rfl
  refine ⟨h1.1 rfl, (h2.2 rfl).1, ?_⟩
  rw [(h2.2 rfl).2.2]
  decide

/-- Claim C8: on the first successful sample the three averages are all
seeded with the instantaneous value (no smoothing) and the initialized flag
becomes true; on every later sample each average follows
`avg*(1-alpha) + instantaneous*alpha` with its window's coefficient. -/
theorem loadCalculator_sampleAndUpdate_spec (c : LoadCalculator) (currentLoad : ℚ) :
    (c.initialized = false →
      (c.sampleAndUpdate currentLoad).load1 = currentLoad ∧
      (c.sampleAndUpdate currentLoad).load5 = currentLoad ∧
      (c.sampleAndUpdate currentLoad).load15 = currentLoad ∧
      (c.sampleAndUpdate currentLoad).initialized = true) ∧
    (c.initialized = true →
      (c.sampleAndUpdate currentLoad).load1 =
        c.load1 * (1 - c.alpha1) + currentLoad * c.alpha1 ∧
      (c.sampleAndUpdate currentLoad).load5 =
        c.load5 * (1 - c.alpha5) + currentLoad * c.alpha5 ∧
      (c.sampleAndUpdate currentLoad).load15 =
        c.load15 * (1 - c.alpha15) + currentLoad * c.alpha15 ∧
      (c.sampleAndUpdate currentLoad).initialized = true) := by
  constructor
  · intro h
    simp [LoadCalculator.sampleAndUpdate, h]
  · intro h
    simp [LoadCalculator.sampleAndUpdate, h]

/-- Witness for C8 at the spec's concrete first reading 4.0 on a freshly
constructed calculator: all three averages report 4 and the flag is set. -/
theorem loadCalculator_sampleAndUpdate_spec_witness :
    (wCalc.sampleAndUpdate 4).load1 = 4 ∧ (wCalc.sampleAndUpdate 4).load5 = 4 ∧
    (wCalc.sampleAndUpdate 4).load15 = 4 ∧ (wCalc.sampleAndUpdate 4).initialized = true :=
  (loadCalculator_sampleAndUpdate_spec wCalc 4).1 rfl

/-- Claim C9: construction fails exactly for a non-positive sampling cycle;
a successful construction precomputes the coefficients `1 - exp(-dt/60)`,
`1 - exp(-dt/300)` and `1 - exp(-dt/900)`; the start guard rejects exactly
the non-Linux case; and no sampling update ever changes the coefficients. -/
theorem newLoadCalculator_spec (sampleCycle : ℚ) (exp : ℚ → ℚ) (goos : String)
    (c : LoadCalculator) (currentLoad : ℚ) :
    ((∃ msg, NewLoadCalculator sampleCycle exp = .error msg) ↔ sampleCycle ≤ 0) ∧
    (∀ lc, NewLoadCalculator sampleCycle exp = .ok lc →
      lc.alpha1 = 1 - exp (-sampleCycle / 60) ∧
      lc.alpha5 = 1 - exp (-sampleCycle / 300) ∧
      lc.alpha15 = 1 - exp (-sampleCycle / 900)) ∧
    ((StartLoad goos).isSome ↔ goos ≠ "linux") ∧
    ((c.sampleAndUpdate currentLoad).alpha1 = c.alpha1 ∧
     (c.sampleAndUpdate currentLoad).alpha5 = c.alpha5 ∧
     (c.sampleAndUpdate currentLoad).alpha15 = c.alpha15) := by
  refine ⟨?_, ?_, ?_, ?_⟩
  · by_cases h : sampleCycle ≤ 0
    · simp [NewLoadCalculator, h]
    · simp [NewLoadCalculator, h]
  · intro lc hlc
    by_cases h : sampleCycle ≤ 0
    · simp [NewLoadCalculator, h] at hlc
    · simp only [NewLoadCalculator, if_neg h, Except.ok.injEq] at hlc
      subst hlc
      exact ⟨rfl, rfl, rfl⟩
  · by_cases h : goos = "linux"
    · simp [StartLoad, h]
    · simp [StartLoad, h]
  · cases hinit : c.initialized <;>
      simp [LoadCalculator.sampleAndUpdate, hinit]

/-- Witness for C9 at the concrete cycle 1 second and a concrete stand-in
exponential: construction succeeds with the three formula coefficients, the
start guard accepts linux, and an update leaves the coefficients intact. -/
theorem newLoadCalculator_spec_witness :
    NewLoadCalculator 1 wExp = .ok wCalc ∧
    wCalc.alpha1 = 1 - wExp (-1 / 60) ∧
    wCalc.alpha5 = 1 - wExp (-1 / 300) ∧
    wCalc.alpha15 = 1 - wExp (-1 / 900) ∧
    StartLoad "linux" = none ∧
    (wCalc.sampleAndUpdate 4).alpha1 = wCalc.alpha1 := by
  have hok : NewLoadCalculator 1 wExp = .ok wCalc := by
    simp only [NewLoadCalculator]
    norm_num [wExp, wCalc]
  have h := newLoadCalculator_spec 1 wExp "linux" wCalc 4
  have hnone : StartLoad "linux" = none :=
    Option.not_isSome_iff_eq_none.mp fun hx => (h.2.2.1.mp hx) rfl
  exact ⟨hok, (h.2.1 wCalc hok).1, (h.2.1 wCalc hok).2.1, (h.2.1 wCalc hok).2.2,
    hnone, h.2.2.2.1⟩

/-- Claim C10: `Shutdown` on a registry whose `Start` was never called (nil
ticker) does not panic — the nil check guards the ticker stop — and it
cancels the internal handle, runs every collector's `Close` once in
registration order, and returns exactly `CloseAll`'s result. -/
theorem shutdown_without_start_safe (r : RegistryState) (h : r.ticker = none) :
    ∃ out, r.Shutdown = some out ∧
      out.state.cancelled = true ∧
      out.closeTrace = r.collectors.map Collector.name ∧
      out.result = (Registry.CloseAll ⟨r.collectors⟩).2 := by
  refine ⟨{ state := { r with cancelled := true },
            closeTrace := (CloseAllLoop r.collectors none).1,
            result := (CloseAllLoop r.collectors none).2 }, ?_, rfl, ?_, rfl⟩
  · simp [RegistryState.Shutdown, h]
  · exact closeAllLoop_trace r.collectors none

/-- Witness for C10 at a concrete never-started registry with a failing
closer: no panic, cancellation set, both closes run in order, and the close
error is surfaced. -/
theorem shutdown_without_start_safe_witness :
    ∃ out, RegistryState.Shutdown ⟨[wMemCloseFail, wCpu], none, false⟩ = some out ∧
      out.state.cancelled = true ∧
      out.closeTrace = ["mem-collector", "cpu-collector"] ∧
      out.result = some "close mem failed" := by
  obtain ⟨out, h1, h2, h3, h4⟩ :=
    shutdown_without_start_safe ⟨[wMemCloseFail, wCpu], none, false⟩ rfl
  exact ⟨out, h1, h2, h3.trans (by decide), h4.trans (by decide)⟩

end AgentCollector
